import Mathlib

/-!
Shallow embedding of the playlist module (src/playlist_logic.py) together with
proofs about its specification.

Modelling conventions:
* Python values that can appear in song fields are modelled by `Value`
  (None, bool, int, float, str, list).  Python floats are modelled as exact
  rationals; the claims only involve exact arithmetic on small numbers.
* Python dicts with string keys are modelled as association lists; lookup
  returns the first binding.  Python dicts always have unique keys, so this
  agrees with the source.
* Operations that can raise a Python exception are modelled with
  `Except String`; operations that cannot raise stay total.
* `str.lower` is modelled on ASCII letters and `str.strip` uses the ASCII
  whitespace characters, which covers every string appearing in the claims.
-/

/-- A Python value as it can appear in a song field. -/
inductive Value where
  | none
  | bool (b : Bool)
  | int (n : Int)
  | float (q : ℚ)
  | str (s : String)
  | list (xs : List Value)

/-- The ASCII whitespace characters recognised by Python str.strip(). -/
def pyWhitespaceChar (c : Char) : Bool :=
  c == ' ' || c == '\t' || c == '\n' || c == '\r' || c == '\x0b' || c == '\x0c'

/-- Python str.lower(), modelled on ASCII letters. -/
def pyLower (s : String) : String := String.mk (s.data.map Char.toLower)

/-- Python str.strip(): drop leading and trailing whitespace. -/
def pyStrip (s : String) : String :=
  String.mk (((s.data.dropWhile pyWhitespaceChar).reverse.dropWhile pyWhitespaceChar).reverse)

mutual

/-- Python repr() of a value (string escaping approximated; only ever used
through str() of a list, which no claim inspects). -/
def pyRepr : Value → String
  | .none => "None"
  | .bool true => "True"
  | .bool false => "False"
  | .int n => toString n
  | .float q => toString q
  | .str s => "\x27" ++ s ++ "\x27"
  | .list xs => "[" ++ String.intercalate ", " (pyReprList xs) ++ "]"

def pyReprList : List Value → List String
  | [] => []
  | v :: vs => pyRepr v :: pyReprList vs

end

/-- Python str() of a value. -/
def pyStr : Value → String
  | .str s => s
  | .list xs => "[" ++ String.intercalate ", " (pyReprList xs) ++ "]"
  | v => pyRepr v

/-- Python truthiness of a value. -/
def pyTruthy : Value → Bool
  | .none => false
  | .bool b => b
  | .int n => n != 0
  | .float q => q != 0
  | .str s => s != ""
  | .list xs => !xs.isEmpty

/-- isinstance(x, (int, float)) together with the numeric value:
booleans count as ints in Python (True is 1, False is 0). -/
def pyNum : Value → Option ℚ
  | .bool b => some (if b then 1 else 0)
  | .int n => some (n : ℚ)
  | .float q => some q
  | _ => Option.none

/-- Whether a value is hashable in Python.  Of the value kinds in the model
only lists are unhashable. -/
def pyHashable : Value → Bool
  | .list _ => false
  | _ => true

def digitsToNat (l : List Char) : Nat :=
  l.foldl (fun n c => n * 10 + (c.toNat - 48)) 0

def parseDigits (l : List Char) : Option Nat :=
  if l.isEmpty then Option.none
  else if l.all Char.isDigit then some (digitsToNat l) else Option.none

/-- Python int(s) on strings, modelled for plain decimal literals:
optional surrounding whitespace, optional sign, decimal digits
(no underscores or non-ASCII digits, which no claim exercises). -/
def pyIntParse (s : String) : Option Int :=
  let t := pyStrip s
  if t.startsWith "-" then (parseDigits (t.drop 1).data).map (fun n => -(n : Int))
  else if t.startsWith "+" then (parseDigits (t.drop 1).data).map (fun n => (n : Int))
  else (parseDigits t.data).map (fun n => (n : Int))

def parseDecimal (body : String) : Option ℚ :=
  match body.splitOn "." with
  | [ip] => (parseDigits ip.data).map (fun n => (n : ℚ))
  | [ip, fp] =>
    if (ip.data.all Char.isDigit && fp.data.all Char.isDigit) && (!ip.isEmpty || !fp.isEmpty) then
      some ((digitsToNat ip.data : ℚ) + (digitsToNat fp.data : ℚ) / ((10 : ℚ) ^ fp.length))
    else Option.none
  | _ => Option.none

/-- Python float(s) on strings, modelled for plain decimal literals:
optional surrounding whitespace, optional sign, digits with an optional
decimal point (no exponents, inf or nan, which no claim exercises). -/
def pyFloatParse (s : String) : Option ℚ :=
  let t := pyStrip s
  if t.startsWith "-" then (parseDecimal (t.drop 1)).map (fun q => -q)
  else if t.startsWith "+" then parseDecimal (t.drop 1)
  else parseDecimal t

/-- Python float(x): succeeds on numbers (booleans included) and on
numeric strings; raises TypeError or ValueError otherwise. -/
def pyFloat : Value → Except String ℚ
  | .bool b => .ok (if b then 1 else 0)
  | .int n => .ok (n : ℚ)
  | .float q => .ok q
  | .str s =>
    match pyFloatParse s with
    | some q => .ok q
    | Option.none => .error "ValueError: could not convert string to float"
  | _ => .error "TypeError: float() argument must be a string or a real number"

/-- A Python dict with string keys, as an association list (unique keys). -/
abbrev Dict := List (String × Value)

/-- d.get(k, dflt). -/
def dictGet (d : Dict) (k : String) (dflt : Value) : Value :=
  match d.find? (fun e => e.1 == k) with
  | some e => e.2
  | Option.none => dflt

/-- d[k] = v (replacing an existing binding, else appending). -/
def dictSet : Dict → String → Value → Dict
  | [], k, v => [(k, v)]
  | (a, w) :: rest, k, v => if a = k then (a, v) :: rest else (a, w) :: dictSet rest k v

/-- Python substring containment: q in s. -/
def strContains (s q : String) : Bool :=
  s.data.tails.any (fun t => q.data.isPrefixOf t)

/-- The substring relation as the spec words it: s decomposes around q. -/
def IsSubstring (q s : String) : Prop :=
  ∃ l r : List Char, s.data = l ++ q.data ++ r

/-- The expression float(s.get("energy", 0) or 0) from compute_playlist_stats,
split into its `or 0` part. -/
def pyOrZero (v : Value) : Value := if pyTruthy v then v else .int 0

def energyFloat (s : Dict) : Except String ℚ :=
  pyFloat (pyOrZero (dictGet s "energy" (.int 0)))

/-! ## Normalizer (src/playlist_logic.py lines 15-66) -/

def normalize_title : Value → String
  | .str s => pyStrip s
  | _ => ""

def normalize_artist (artist : String) : String :=
  if artist = "" then "" else pyLower (pyStrip artist)

def normalize_genre (genre : String) : String :=
  pyStrip (pyLower genre)

/-- The implicit iteration over raw.get("tags", []) after the str test:
a string becomes a one-element list, a list iterates, and every other
value kind in the model is not iterable, so Python raises TypeError. -/
def tagsIter : Value → Except String (List Value)
  | .str s => .ok [.str s]
  | .list xs => .ok xs
  | _ => .error "TypeError: object is not iterable"

def normTags (tags : List Value) : List Value :=
  tags.filterMap (fun t =>
    match t with
    | .str s =>
      let tt := pyStrip s
      if tt = "" then Option.none else some (.str (pyLower tt))
    | _ => Option.none)

def normalize_song (raw : Dict) : Except String Dict :=
  let title := normalize_title (.str (pyStr (dictGet raw "title" (.str ""))))
  let artist := normalize_artist (pyStr (dictGet raw "artist" (.str "")))
  let genre := normalize_genre (pyStr (dictGet raw "genre" (.str "")))
  let energy : Value :=
    match dictGet raw "energy" (.int 0) with
    | .str s =>
      match pyIntParse s with
      | some n => .int n
      | Option.none => .int 0
    | v => v
  match tagsIter (dictGet raw "tags" (.list [])) with
  | .error e => .error e
  | .ok tags =>
    .ok [("title", .str title), ("artist", .str artist), ("genre", .str genre),
         ("energy", energy), ("tags", .list (normTags tags))]

/-! ## Profile and Classifier (lines 6-12 and 69-99) -/

/-- A user profile.  Thresholds are integers when present, exactly as in
DEFAULT_PROFILE and the spec data model; int() applied to them in the
source is then the identity.  The field defaults are DEFAULT_PROFILE. -/
structure Profile where
  name : String := "Default"
  hype_min_energy : Option Int := some 7
  chill_max_energy : Option Int := some 3
  favorite_genre : Option Value := some (.str "rock")
  include_mixed : Bool := true

def DEFAULT_PROFILE : Profile := {}

/-- str(song.get("genre", "")).lower() in classify_song. -/
def songGenre (song : Dict) : String := pyLower (pyStr (dictGet song "genre" (.str "")))

/-- str(song.get("title", "")).lower() in classify_song. -/
def songTitleLower (song : Dict) : String := pyLower (pyStr (dictGet song "title" (.str "")))

/-- str(profile.get("favorite_genre", "")).lower() in classify_song. -/
def favGenre (profile : Profile) : String :=
  pyLower (pyStr (profile.favorite_genre.getD (.str "")))

def hypeKeywords : List String := ["rock", "punk", "party"]

def chillKeywords : List String := ["lofi", "ambient", "sleep"]

/-- isinstance(energy, (int, float)) and energy >= n. -/
def energyGE (song : Dict) (n : Int) : Bool :=
  match pyNum (dictGet song "energy" (.int 0)) with
  | some q => decide ((n : ℚ) ≤ q)
  | Option.none => false

/-- isinstance(energy, (int, float)) and energy <= n. -/
def energyLE (song : Dict) (n : Int) : Bool :=
  match pyNum (dictGet song "energy" (.int 0)) with
  | some q => decide (q ≤ (n : ℚ))
  | Option.none => false

/-- The first branch condition of classify_song. -/
def hypeCond (song : Dict) (profile : Profile) : Bool :=
  songGenre song == favGenre profile
    || energyGE song (profile.hype_min_energy.getD 7)
    || hypeKeywords.any (fun k => strContains (songGenre song) k)

/-- The second branch condition of classify_song. -/
def chillCond (song : Dict) (profile : Profile) : Bool :=
  energyLE song (profile.chill_max_energy.getD 3)
    || chillKeywords.any (fun k => strContains (songTitleLower song) k)

def classify_song (song : Dict) (profile : Profile) : String :=
  if hypeCond song profile then "Hype"
  else if chillCond song profile then "Chill"
  else "Mixed"

/-! ## Playlist Builder and Merger (lines 102-125) -/

/-- A playlist grouping: mood key to list of songs, as an association list. -/
abbrev PlaylistMap := List (String × List Dict)

/-- p.get(k, dflt) on a grouping. -/
def pmGetD (p : PlaylistMap) (k : String) (dflt : List Dict) : List Dict :=
  match p.find? (fun e => e.1 == k) with
  | some e => e.2
  | Option.none => dflt

/-- playlists[k].append(s).  In the source the key is always present when
this runs (classify_song only returns the three initialised keys); on a
missing key Python would raise KeyError, which is never reached. -/
def pmAppend : PlaylistMap → String → Dict → PlaylistMap
  | [], _, _ => []
  | (a, l) :: rest, k, s =>
    if a = k then (a, l ++ [s]) :: rest else (a, l) :: pmAppend rest k s

def buildLoop (profile : Profile) : PlaylistMap → List Dict → Except String PlaylistMap
  | playlists, [] => .ok playlists
  | playlists, song :: rest =>
    match normalize_song song with
    | .error e => .error e
    | .ok normalized =>
      let mood := classify_song normalized profile
      buildLoop profile (pmAppend playlists mood (dictSet normalized "mood" (.str mood))) rest

def build_playlists (songs : List Dict) (profile : Profile) : Except String PlaylistMap :=
  buildLoop profile [("Hype", []), ("Chill", []), ("Mixed", [])] songs

/-- merge_playlists.  The source iterates over set(list(a.keys()) + list(b.keys())),
whose iteration order is unspecified; the model fixes one enumeration of that
key set (List.dedup of the concatenation).  Only the key set and the per-key
contents are observable through dict lookup. -/
def merge_playlists (a b : PlaylistMap) : PlaylistMap :=
  ((a.map Prod.fst ++ b.map Prod.fst).dedup).map
    (fun k => (k, pmGetD a k [] ++ pmGetD b k []))

/-! ## Statistics Engine (lines 128-194) -/

def flattenSongs (p : PlaylistMap) : List Dict := (p.map Prod.snd).flatten

/-- The deduplication key: (title.strip().lower(), artist.strip().lower()). -/
def songKey (s : Dict) : String × String :=
  (pyLower (pyStrip (pyStr (dictGet s "title" (.str "")))),
   pyLower (pyStrip (pyStr (dictGet s "artist" (.str "")))))

/-- The unique_map loop of compute_playlist_stats: keep the first occurrence
of each key, in order. -/
def dedupByKey : List (String × String) → List Dict → List Dict
  | _, [] => []
  | seen, s :: rest =>
    if songKey s ∈ seen then dedupByKey seen rest
    else s :: dedupByKey (songKey s :: seen) rest

def dedupSongs (songs : List Dict) : List Dict := dedupByKey [] songs

/-- counts[key] = counts.get(key, 0) + 1 on an insertion-ordered dict. -/
def bumpCount : List (String × Nat) → String → List (String × Nat)
  | [], k => [(k, 1)]
  | (a, n) :: rest, k =>
    if a = k then (a, n + 1) :: rest else (a, n) :: bumpCount rest k

def artistCounts (songs : List Dict) : List (String × Nat) :=
  songs.foldl (fun counts song =>
    let artist := pyStrip (pyStr (dictGet song "artist" (.str "")))
    if artist = "" then counts else bumpCount counts (pyLower artist)) []

/-- The head of a stable descending sort by count: the first entry whose
count is maximal (Python's sorted is stable, so ties keep insertion order). -/
def maxCountEntry : List (String × Nat) → Option (String × Nat)
  | [] => Option.none
  | e :: rest =>
    match maxCountEntry rest with
    | Option.none => some e
    | some m => if e.2 < m.2 then some m else some e

def most_common_artist (songs : List Dict) : String × Nat :=
  match maxCountEntry (artistCounts songs) with
  | Option.none => ("", 0)
  | some e => e

/-- sum(float(s.get("energy", 0) or 0) for s in unique_songs): evaluation
stops at the first element on which float() raises. -/
def mapExcept (f : Dict → Except String ℚ) : List Dict → Except String (List ℚ)
  | [] => .ok []
  | s :: rest =>
    match f s with
    | .error e => .error e
    | .ok q =>
      match mapExcept f rest with
      | .error e => .error e
      | .ok qs => .ok (q :: qs)

structure Stats where
  total_songs : Nat
  hype_count : Nat
  chill_count : Nat
  mixed_count : Nat
  hype_ratio : ℚ
  avg_energy : ℚ
  top_artist : String
  top_artist_count : Nat
deriving DecidableEq

def avgEnergyE (uniqueSongs : List Dict) : Except String ℚ :=
  if 0 < uniqueSongs.length then
    match mapExcept energyFloat uniqueSongs with
    | .error e => .error e
    | .ok energies => .ok (energies.sum / (uniqueSongs.length : ℚ))
  else .ok 0

def compute_playlist_stats (playlists : PlaylistMap) : Except String Stats :=
  let uniqueSongs := dedupSongs (flattenSongs playlists)
  let totalUnique := uniqueSongs.length
  let hypeCount := (pmGetD playlists "Hype" []).length
  let chillCount := (pmGetD playlists "Chill" []).length
  let mixedCount := (pmGetD playlists "Mixed" []).length
  let hypeRatio : ℚ := if 0 < totalUnique then (hypeCount : ℚ) / (totalUnique : ℚ) * 100 else 0
  match avgEnergyE uniqueSongs with
  | .error e => .error e
  | .ok avgEnergy =>
    let top := most_common_artist uniqueSongs
    .ok { total_songs := totalUnique, hype_count := hypeCount, chill_count := chillCount,
          mixed_count := mixedCount, hype_ratio := hypeRatio, avg_energy := avgEnergy,
          top_artist := top.1, top_artist_count := top.2 }

/-! ## Search, Picker, History Summarizer (lines 197-260) -/

def search_songs (songs : List Dict) (query : String) (field : String) : List Dict :=
  if query = "" then songs
  else
    let q := pyStrip (pyLower query)
    songs.filter (fun song =>
      let value := pyLower (pyStr (dictGet song field (.str "")))
      value != "" && strContains value q)

/-- lucky_pick with the random draw injected as an index, per spec section 9;
random.choice never raises on the non-empty list it is given. -/
def lucky_pick (playlists : PlaylistMap) (mode : String) (rand : Nat) : Option Dict :=
  let songs :=
    if mode = "hype" then pmGetD playlists "Hype" []
    else if mode = "chill" then pmGetD playlists "Chill" []
    else pmGetD playlists "Hype" [] ++ pmGetD playlists "Chill" [] ++ pmGetD playlists "Mixed" []
  if songs.isEmpty then Option.none else songs.get? (rand % songs.length)

/-- The loop of history_summary.  Python evaluates `mood not in counts`,
which hashes the mood value first: an unhashable mood raises TypeError.
A hashable mood is in counts exactly when it is one of the three string
keys, since values of other kinds never compare equal to a string. -/
def historyLoop : List (String × Nat) → List Dict → Except String (List (String × Nat))
  | counts, [] => .ok counts
  | counts, song :: rest =>
    match dictGet song "mood" (.str "Mixed") with
    | .list _ => .error "TypeError: unhashable type: list"
    | .str s =>
      if s = "Hype" ∨ s = "Chill" ∨ s = "Mixed" then historyLoop (bumpCount counts s) rest
      else historyLoop (bumpCount counts "Mixed") rest
    | _ => historyLoop (bumpCount counts "Mixed") rest

def history_summary (history : List Dict) : Except String (List (String × Nat)) :=
  historyLoop [("Hype", 0), ("Chill", 0), ("Mixed", 0)] history

/-! ## Spec-side definitions used to state the claims -/

/-- The raw (non-deduplicated) length of the Hype list, as the spec words it. -/
def hypeRawCount (p : PlaylistMap) : Nat := (pmGetD p "Hype" []).length

/-- The number of unique songs as the spec words it: the number of distinct
(lowercased-trimmed title, lowercased-trimmed artist) keys among all songs. -/
def specUniqueCount (p : PlaylistMap) : Nat :=
  ((flattenSongs p).map songKey).toFinset.card

/-- Tags values the source can iterate (everything else raises TypeError). -/
def tagsOk : Value → Bool
  | .str _ => true
  | .list _ => true
  | _ => false

/-- Energy values on which float(energy or 0) succeeds. -/
def energyCoercible : Value → Bool
  | .str s => s == "" || (pyFloatParse s).isSome
  | .list xs => xs.isEmpty
  | _ => true

def moodOf (song : Dict) : Value := dictGet song "mood" (.str "Mixed")

def moodIs (song : Dict) (k : String) : Bool :=
  match moodOf song with
  | .str s => s == k
  | _ => false

def cntMood (h : List Dict) (k : String) : Nat := (h.filter (fun s => moodIs s k)).length

/-- Entries counted in the Mixed bucket: mood neither the Hype nor the
Chill key (canonical "Mixed", missing, and non-canonical values alike). -/
def cntMixedBucket (h : List Dict) : Nat :=
  (h.filter (fun s => !(moodIs s "Hype") && !(moodIs s "Chill"))).length

/-- str(song.get(field, "")).lower(), as used by search_songs. -/
def fieldValue (song : Dict) (field : String) : String :=
  pyLower (pyStr (dictGet song field (.str "")))

def pmTotal (pm : PlaylistMap) : Nat := (pm.map (fun e => e.2.length)).sum

abbrev moodInvariant (pm : PlaylistMap) : Prop :=
  ∀ e ∈ pm, ∀ s ∈ e.2, dictGet s "mood" (.str "") = .str e.1

instance {E A : Type} [DecidableEq E] [DecidableEq A] : DecidableEq (Except E A) := fun a b =>
  match a, b with
  | .ok x, .ok y =>
    if h : x = y then .isTrue (by rw [h]) else .isFalse (fun hc => h (Except.ok.inj hc))
  | .error x, .error y =>
    if h : x = y then .isTrue (by rw [h]) else .isFalse (fun hc => h (Except.error.inj hc))
  | .ok _, .error _ => .isFalse (fun hc => Except.noConfusion hc)
  | .error _, .ok _ => .isFalse (fun hc => Except.noConfusion hc)

def dupGrouping : PlaylistMap :=
  [("Hype", [[("title", Value.str "A"), ("artist", Value.str "X")],
             [("title", Value.str "A"), ("artist", Value.str "X")]])]

def dupStats : Stats :=
  { total_songs := 1, hype_count := 2, chill_count := 0, mixed_count := 0,
    hype_ratio := 200, avg_energy := 0, top_artist := "x", top_artist_count := 1 }

def exSongs4 : List Dict :=
  [[("title", Value.str "A"), ("artist", Value.str "X"), ("energy", Value.int 9)],
   [("title", Value.str "B"), ("energy", Value.int 2)]]

def exPm4 : PlaylistMap :=
  [("Hype", [[("title", Value.str "A"), ("artist", Value.str "x"),
              ("genre", Value.str ""), ("energy", Value.int 9),
              ("tags", Value.list []), ("mood", Value.str "Hype")]]),
   ("Chill", [[("title", Value.str "B"), ("artist", Value.str ""),
               ("genre", Value.str ""), ("energy", Value.int 2),
               ("tags", Value.list []), ("mood", Value.str "Chill")]]),
   ("Mixed", [])]

/-! ## Helper lemmas -/

theorem strContains_iff (s q : String) : strContains s q = true ↔ IsSubstring q s := by
  unfold strContains IsSubstring
  rw [List.any_eq_true]
  constructor
  · rintro ⟨t, ht, hp⟩
    rw [List.mem_tails] at ht
    obtain ⟨l, hl⟩ := ht
    rw [ List.isPrefixOf_iff_prefix] at hp
    obtain ⟨r, hr⟩ := hp
    exact ⟨l, r, by rw [← hl, ← hr, List.append_assoc]⟩
  · rintro ⟨l, r, hs⟩
    refine ⟨q.data ++ r, ?_, ?_⟩
    · rw [List.mem_tails]
      exact ⟨l, by rw [← List.append_assoc, ← hs]⟩
    · rw [ List.isPrefixOf_iff_prefix]
      exact ⟨r, rfl⟩

theorem strContains_empty (s : String) : strContains s "" = true := by
  unfold strContains
  rw [List.any_eq_true]
  refine ⟨s.data, ?_, ?_⟩
  · rw [List.mem_tails]
  · simp [ List.isPrefixOf_iff_prefix]

theorem pyStrip_eq_empty (s : String) (h : ∀ c ∈ s.data, pyWhitespaceChar c = true) :
    pyStrip s = "" := by
  unfold pyStrip
  have h1 : s.data.dropWhile pyWhitespaceChar = [] := List.dropWhile_eq_nil_iff.mpr h
  rw [h1]
  rfl

theorem toLower_whitespace (c : Char) (h : pyWhitespaceChar c = true) : c.toLower = c := by
  simp only [pyWhitespaceChar, Bool.or_eq_true, beq_iff_eq] at h
  rcases h with ((((h | h) | h) | h) | h) | h <;> subst h <;> decide

theorem dictGet_dictSet_self (d : Dict) (k : String) (v : Value) (dflt : Value) :
    dictGet (dictSet d k v) k dflt = v := by
  induction d with
  | nil => simp [dictSet, dictGet, List.find?]
  | cons e rest ih =>
    obtain ⟨a, w⟩ := e
    by_cases hak : a = k
    · subst hak
      simp [dictSet, dictGet, List.find?]
    · simp only [dictSet, if_neg hak]
      show dictGet ((a, w) :: dictSet rest k v) k dflt = v
      unfold dictGet
      rw [List.find?_cons, show (((a, w).1 == k)) = false from by simpa using hak]
      exact ih

theorem pmAppend_keys (pm : PlaylistMap) (k : String) (s : Dict) :
    (pmAppend pm k s).map Prod.fst = pm.map Prod.fst := by
  induction pm with
  | nil => rfl
  | cons e rest ih =>
    obtain ⟨a, l⟩ := e
    by_cases hak : a = k
    · simp [pmAppend, hak]
    · simp [pmAppend, hak, ih]

theorem pmAppend_total (pm : PlaylistMap) (k : String) (s : Dict)
    (h : k ∈ pm.map Prod.fst) : pmTotal (pmAppend pm k s) = pmTotal pm + 1 := by
  induction pm with
  | nil => simp at h
  | cons e rest ih =>
    obtain ⟨a, l⟩ := e
    by_cases hak : a = k
    · simp [pmAppend, hak, pmTotal]
      omega
    · simp only [List.map_cons, List.mem_cons] at h
      rcases h with h | h
      · exact absurd h.symm hak
      · have := ih h
        simp only [pmAppend, if_neg hak, pmTotal, List.map_cons, List.sum_cons] at this ⊢
        omega

theorem pmAppend_mood (pm : PlaylistMap) (k : String) (s : Dict)
    (hpm : moodInvariant pm) (hs : dictGet s "mood" (.str "") = .str k) :
    moodInvariant (pmAppend pm k s) := by
  induction pm with
  | nil => simp [pmAppend, moodInvariant]
  | cons e rest ih =>
    obtain ⟨a, l⟩ := e
    rw [moodInvariant, List.forall_mem_cons] at hpm
    obtain ⟨hhead, hrest⟩ := hpm
    by_cases hak : a = k
    · simp only [pmAppend, if_pos hak, moodInvariant, List.forall_mem_cons]
      subst hak
      refine ⟨?_, hrest⟩
      intro x hx
      rcases List.mem_append.mp hx with hx | hx
      · exact hhead x hx
      · rcases List.mem_singleton.mp hx with rfl
        exact hs
    · simp only [pmAppend, if_neg hak, moodInvariant, List.forall_mem_cons]
      exact ⟨hhead, ih hrest⟩

theorem classify_song_cases (song : Dict) (profile : Profile) :
    classify_song song profile = "Hype" ∨ classify_song song profile = "Chill" ∨
      classify_song song profile = "Mixed" := by
  unfold classify_song
  split
  · left; rfl
  · split
    · right; left; rfl
    · right; right; rfl

theorem classify_hype_of_fav (song : Dict) (profile : Profile)
    (h : songGenre song = favGenre profile) : classify_song song profile = "Hype" := by
  unfold classify_song hypeCond
  rw [h]
  simp

theorem buildLoop_invariant (profile : Profile) (songs : List Dict) :
    ∀ pm pm', pm.map Prod.fst = ["Hype", "Chill", "Mixed"] → moodInvariant pm →
      buildLoop profile pm songs = .ok pm' →
      pm'.map Prod.fst = ["Hype", "Chill", "Mixed"] ∧ moodInvariant pm' ∧
      pmTotal pm' = pmTotal pm + songs.length := by
  induction songs with
  | nil =>
    intro pm pm' hkeys hmood h
    simp only [buildLoop] at h
    cases h
    exact ⟨hkeys, hmood, by simp⟩
  | cons song rest ih =>
    intro pm pm' hkeys hmood h
    simp only [buildLoop] at h
    split at h
    · exact Except.noConfusion h
    · rename_i n heq
      have hmem : classify_song n profile ∈ pm.map Prod.fst := by
        rw [hkeys]
        rcases classify_song_cases n profile with hc | hc | hc <;> simp [hc]
      have hkeys2 : (pmAppend pm (classify_song n profile)
          (dictSet n "mood" (.str (classify_song n profile)))).map Prod.fst =
          ["Hype", "Chill", "Mixed"] := by
        rw [pmAppend_keys, hkeys]
      have hmood2 : moodInvariant (pmAppend pm (classify_song n profile)
          (dictSet n "mood" (.str (classify_song n profile)))) :=
        pmAppend_mood _ _ _ hmood (dictGet_dictSet_self _ _ _ _)
      obtain ⟨h1, h2, h3⟩ := ih _ _ hkeys2 hmood2 h
      refine ⟨h1, h2, ?_⟩
      rw [h3, pmAppend_total _ _ _ hmem]
      simp only [List.length_cons]
      omega

theorem pmGetD_default_of_not_mem (p : PlaylistMap) (k : String) (d : List Dict)
    (h : k ∉ p.map Prod.fst) : pmGetD p k d = d := by
  have hf : p.find? (fun e => e.1 == k) = Option.none := by
    rw [List.find?_eq_none]
    intro e he hbe
    exact h (List.mem_map.mpr ⟨e, he, by simpa using hbe⟩)
  unfold pmGetD
  rw [hf]

theorem find?_map_keys (L : List String) (f : String → List Dict) (k : String) :
    (L.map (fun x => (x, f x))).find? (fun e => e.1 == k) =
      if k ∈ L then some (k, f k) else Option.none := by
  induction L with
  | nil => simp
  | cons x xs ih =>
    by_cases hxk : x = k
    · subst hxk
      simp [List.find?_cons]
    · have hor : (k = x ∨ k ∈ xs) ↔ k ∈ xs := or_iff_right (fun h => hxk h.symm)
      simp [List.find?_cons, hxk, ih, hor]

theorem pmGetD_map_keys (L : List String) (f : String → List Dict) (k : String) (d : List Dict) :
    pmGetD (L.map (fun x => (x, f x))) k d = if k ∈ L then f k else d := by
  unfold pmGetD
  rw [find?_map_keys]
  by_cases h : k ∈ L <;> simp [h]

theorem dedupByKey_length (l : List Dict) :
    ∀ seen : List (String × String),
      (dedupByKey seen l).length = ((l.map songKey).toFinset \ seen.toFinset).card := by
  induction l with
  | nil => intro seen; simp [dedupByKey]
  | cons s rest ih =>
    intro seen
    by_cases hk : songKey s ∈ seen
    · rw [dedupByKey, if_pos hk, ih]
      congr 1
      ext x
      simp only [List.map_cons, List.toFinset_cons, Finset.mem_sdiff, Finset.mem_insert,
        List.mem_toFinset]
      constructor
      · rintro ⟨hx, hns⟩
        exact ⟨Or.inr hx, hns⟩
      · rintro ⟨hx | hx, hns⟩
        · exact absurd (hx ▸ hk) (by simpa [List.mem_toFinset] using hns)
        · exact ⟨hx, hns⟩
    · rw [dedupByKey, if_neg hk, List.length_cons, ih]
      have hset : (((s :: rest).map songKey).toFinset \ seen.toFinset) =
          insert (songKey s) ((rest.map songKey).toFinset \ (songKey s :: seen).toFinset) := by
        ext x
        simp only [List.map_cons, List.toFinset_cons, Finset.mem_sdiff, Finset.mem_insert,
          List.mem_toFinset, List.toFinset_cons, List.mem_cons]
        constructor
        · rintro ⟨hx | hx, hns⟩
          · exact Or.inl hx
          · by_cases hxs : x = songKey s
            · exact Or.inl hxs
            · exact Or.inr ⟨hx, by push_neg; exact ⟨hxs, by simpa [List.mem_toFinset] using hns⟩⟩
        · rintro (rfl | ⟨hx, hns⟩)
          · exact ⟨Or.inl rfl, by simpa [List.mem_toFinset] using hk⟩
          · push_neg at hns
            exact ⟨Or.inr hx, by simpa [List.mem_toFinset] using hns.2⟩
      have hnot : songKey s ∉ (rest.map songKey).toFinset \ (songKey s :: seen).toFinset := by
        simp [List.mem_toFinset]
      rw [hset, Finset.card_insert_of_not_mem hnot]

@[simp] theorem isOk_error {A : Type} (e : String) :
    (Except.error e : Except String A).isOk = false := rfl

@[simp] theorem isOk_ok {A : Type} (a : A) :
    (Except.ok a : Except String A).isOk = true := rfl

theorem energyCoercible_ok (v : Value) (h : energyCoercible v = true) :
    (pyFloat (pyOrZero v)).isOk = true := by
  cases v with
  | none => rfl
  | bool b => cases b <;> rfl
  | int n => unfold pyOrZero; split <;> rfl
  | float q => unfold pyOrZero; split <;> rfl
  | str s =>
    by_cases hs : s = ""
    · subst hs; rfl
    · simp only [energyCoercible, Bool.or_eq_true, beq_iff_eq, hs, false_or] at h
      obtain ⟨q, hq⟩ := Option.isSome_iff_exists.mp h
      unfold pyOrZero pyTruthy
      rw [if_pos (by simpa using hs)]
      simp [pyFloat, hq]
  | list xs =>
    simp only [energyCoercible] at h
    rw [List.isEmpty_iff.mp h]
    rfl

theorem mapExcept_ok (f : Dict → Except String ℚ) (l : List Dict)
    (h : ∀ s ∈ l, (f s).isOk = true) : (mapExcept f l).isOk = true := by
  induction l with
  | nil => rfl
  | cons x xs ih =>
    have hx := h x (List.mem_cons_self _ _)
    have ht := ih (fun s hs => h s (List.mem_cons_of_mem _ hs))
    rw [mapExcept]
    cases hfx : f x with
    | error e => rw [hfx] at hx; simp at hx
    | ok q =>
      cases hm : mapExcept f xs with
      | error e => rw [hm] at ht; simp at ht
      | ok qs => rfl

theorem dedupByKey_subset (l : List Dict) :
    ∀ seen s, s ∈ dedupByKey seen l → s ∈ l := by
  induction l with
  | nil => intro seen s h; simp [dedupByKey] at h
  | cons x xs ih =>
    intro seen s h
    rw [dedupByKey] at h
    split at h
    · exact List.mem_cons_of_mem _ (ih _ _ h)
    · rcases List.mem_cons.mp h with rfl | h
      · exact List.mem_cons_self _ _
      · exact List.mem_cons_of_mem _ (ih _ _ h)

theorem avgEnergyE_ok (l : List Dict) (h : ∀ s ∈ l, (energyFloat s).isOk = true) :
    (avgEnergyE l).isOk = true := by
  unfold avgEnergyE
  split
  · cases hm : mapExcept energyFloat l with
    | error e =>
      have := mapExcept_ok _ _ h
      rw [hm] at this
      simp at this
    | ok qs => rfl
  · rfl

theorem compute_playlist_stats_ok (p : PlaylistMap)
    (h : ∀ s ∈ flattenSongs p, energyCoercible (dictGet s "energy" (.int 0)) = true) :
    (compute_playlist_stats p).isOk = true := by
  have hok : (avgEnergyE (dedupSongs (flattenSongs p))).isOk = true := by
    apply avgEnergyE_ok
    intro s hs
    exact energyCoercible_ok _ (h s (dedupByKey_subset _ _ _ hs))
  simp only [compute_playlist_stats]
  cases hm : avgEnergyE (dedupSongs (flattenSongs p)) with
  | error e => rw [hm] at hok; simp at hok
  | ok q => rfl

theorem tagsIter_ok (v : Value) (h : tagsOk v = true) : ∃ l, tagsIter v = .ok l := by
  cases v <;> first
    | exact ⟨_, rfl⟩
    | simp [tagsOk] at h

theorem normalize_song_ok (raw : Dict)
    (h : tagsOk (dictGet raw "tags" (.list [])) = true) :
    (normalize_song raw).isOk = true := by
  obtain ⟨l, hl⟩ := tagsIter_ok _ h
  simp only [normalize_song]
  rw [hl]
  rfl

theorem buildLoop_ok (profile : Profile) (songs : List Dict) :
    ∀ pm, (∀ raw ∈ songs, tagsOk (dictGet raw "tags" (.list [])) = true) →
      (buildLoop profile pm songs).isOk = true := by
  induction songs with
  | nil => intro pm _; rfl
  | cons x xs ih =>
    intro pm h
    have hx := normalize_song_ok x (h x (List.mem_cons_self _ _))
    rw [buildLoop]
    cases hn : normalize_song x with
    | error e => rw [hn] at hx; simp at hx
    | ok n => exact ih _ (fun raw hr => h raw (List.mem_cons_of_mem _ hr))

theorem bump3_hype (a b c : Nat) :
    bumpCount [("Hype", a), ("Chill", b), ("Mixed", c)] "Hype" =
      [("Hype", a + 1), ("Chill", b), ("Mixed", c)] := rfl

theorem bump3_chill (a b c : Nat) :
    bumpCount [("Hype", a), ("Chill", b), ("Mixed", c)] "Chill" =
      [("Hype", a), ("Chill", b + 1), ("Mixed", c)] := rfl

theorem bump3_mixed (a b c : Nat) :
    bumpCount [("Hype", a), ("Chill", b), ("Mixed", c)] "Mixed" =
      [("Hype", a), ("Chill", b), ("Mixed", c + 1)] := rfl

theorem cntMood_cons (x : Dict) (t : List Dict) (k : String) :
    cntMood (x :: t) k = cntMood t k + (if moodIs x k = true then 1 else 0) := by
  by_cases h : moodIs x k = true
  · simp [cntMood, List.filter_cons, h]
  · simp [cntMood, List.filter_cons, h]

theorem cntMixedBucket_cons (x : Dict) (t : List Dict) :
    cntMixedBucket (x :: t) = cntMixedBucket t +
      (if (!(moodIs x "Hype") && !(moodIs x "Chill")) = true then 1 else 0) := by
  by_cases h : (!(moodIs x "Hype") && !(moodIs x "Chill")) = true
  · simp [cntMixedBucket, List.filter_cons, h]
  · simp [cntMixedBucket, List.filter_cons, h]

theorem historyLoop_counts (h : List Dict) :
    ∀ a b c, (∀ s ∈ h, pyHashable (moodOf s) = true) →
      historyLoop [("Hype", a), ("Chill", b), ("Mixed", c)] h =
        .ok [("Hype", a + cntMood h "Hype"), ("Chill", b + cntMood h "Chill"),
             ("Mixed", c + cntMixedBucket h)] := by
  induction h with
  | nil => intro a b c _; simp [historyLoop, cntMood, cntMixedBucket]
  | cons x t ih =>
    intro a b c hh
    have hx := hh x (List.mem_cons_self _ _)
    have ht : ∀ s ∈ t, pyHashable (moodOf s) = true :=
      fun s hs => hh s (List.mem_cons_of_mem _ hs)
    rw [historyLoop, cntMood_cons, cntMood_cons, cntMixedBucket_cons]
    cases hm : moodOf x with
    | list xs => rw [hm] at hx; simp [pyHashable] at hx
    | str m =>
      have hm' : dictGet x "mood" (.str "Mixed") = Value.str m := hm
      rw [hm']
      have hmoodIs : ∀ k, moodIs x k = (m == k) := by
        intro k
        unfold moodIs
        rw [hm]
      dsimp only
      by_cases h1 : m = "Hype"
      · subst h1
        have eH : (if moodIs x "Hype" = true then 1 else 0) = 1 := by simp [hmoodIs]
        have eC : (if moodIs x "Chill" = true then 1 else 0) = 0 := by simp [hmoodIs]
        have eM : (if (!moodIs x "Hype" && !moodIs x "Chill") = true then 1 else 0) = 0 := by
          simp [hmoodIs]
        rw [if_pos (Or.inl rfl), bump3_hype, ih (a + 1) b c ht, eH, eC, eM]
        simp only [Except.ok.injEq, List.cons.injEq, Prod.mk.injEq, true_and, and_true]
        omega
      · by_cases h2 : m = "Chill"
        · subst h2
          have eH : (if moodIs x "Hype" = true then 1 else 0) = 0 := by simp [hmoodIs]
          have eC : (if moodIs x "Chill" = true then 1 else 0) = 1 := by simp [hmoodIs]
          have eM : (if (!moodIs x "Hype" && !moodIs x "Chill") = true then 1 else 0) = 0 := by
            simp [hmoodIs]
          rw [if_pos (Or.inr (Or.inl rfl)), bump3_chill, ih a (b + 1) c ht, eH, eC, eM]
          simp only [Except.ok.injEq, List.cons.injEq, Prod.mk.injEq, true_and, and_true]
          omega
        · have eH : (if moodIs x "Hype" = true then 1 else 0) = 0 := by simp [hmoodIs, h1]
          have eC : (if moodIs x "Chill" = true then 1 else 0) = 0 := by simp [hmoodIs, h2]
          have eM : (if (!moodIs x "Hype" && !moodIs x "Chill") = true then 1 else 0) = 1 := by
            simp [hmoodIs, h1, h2]
          by_cases h3 : m = "Mixed"
          · subst h3
            rw [if_pos (Or.inr (Or.inr rfl)), bump3_mixed, ih a b (c + 1) ht, eH, eC, eM]
            simp only [Except.ok.injEq, List.cons.injEq, Prod.mk.injEq, true_and, and_true]
            omega
          · rw [if_neg (by simp [h1, h2, h3]), bump3_mixed, ih a b (c + 1) ht, eH, eC, eM]
            simp only [Except.ok.injEq, List.cons.injEq, Prod.mk.injEq, true_and, and_true]
            omega
    | none =>
      have hm' : dictGet x "mood" (.str "Mixed") = Value.none := hm
      have eH : (if moodIs x "Hype" = true then 1 else 0) = 0 := by simp [moodIs, hm]
      have eC : (if moodIs x "Chill" = true then 1 else 0) = 0 := by simp [moodIs, hm]
      have eM : (if (!moodIs x "Hype" && !moodIs x "Chill") = true then 1 else 0) = 1 := by
        simp [moodIs, hm]
      rw [hm']
      dsimp only
      rw [bump3_mixed, ih a b (c + 1) ht, eH, eC, eM]
      simp only [Except.ok.injEq, List.cons.injEq, Prod.mk.injEq, true_and, and_true]
      omega
    | bool b' =>
      have hm' : dictGet x "mood" (.str "Mixed") = Value.bool b' := hm
      have eH : (if moodIs x "Hype" = true then 1 else 0) = 0 := by simp [moodIs, hm]
      have eC : (if moodIs x "Chill" = true then 1 else 0) = 0 := by simp [moodIs, hm]
      have eM : (if (!moodIs x "Hype" && !moodIs x "Chill") = true then 1 else 0) = 1 := by
        simp [moodIs, hm]
      rw [hm']
      dsimp only
      rw [bump3_mixed, ih a b (c + 1) ht, eH, eC, eM]
      simp only [Except.ok.injEq, List.cons.injEq, Prod.mk.injEq, true_and, and_true]
      omega
    | int n =>
      have hm' : dictGet x "mood" (.str "Mixed") = Value.int n := hm
      have eH : (if moodIs x "Hype" = true then 1 else 0) = 0 := by simp [moodIs, hm]
      have eC : (if moodIs x "Chill" = true then 1 else 0) = 0 := by simp [moodIs, hm]
      have eM : (if (!moodIs x "Hype" && !moodIs x "Chill") = true then 1 else 0) = 1 := by
        simp [moodIs, hm]
      rw [hm']
      dsimp only
      rw [bump3_mixed, ih a b (c + 1) ht, eH, eC, eM]
      simp only [Except.ok.injEq, List.cons.injEq, Prod.mk.injEq, true_and, and_true]
      omega
    | float q =>
      have hm' : dictGet x "mood" (.str "Mixed") = Value.float q := hm
      have eH : (if moodIs x "Hype" = true then 1 else 0) = 0 := by simp [moodIs, hm]
      have eC : (if moodIs x "Chill" = true then 1 else 0) = 0 := by simp [moodIs, hm]
      have eM : (if (!moodIs x "Hype" && !moodIs x "Chill") = true then 1 else 0) = 1 := by
        simp [moodIs, hm]
      rw [hm']
      dsimp only
      rw [bump3_mixed, ih a b (c + 1) ht, eH, eC, eM]
      simp only [Except.ok.injEq, List.cons.injEq, Prod.mk.injEq, true_and, and_true]
      omega

theorem cnt_sum (h : List Dict) :
    cntMood h "Hype" + cntMood h "Chill" + cntMixedBucket h = h.length := by
  induction h with
  | nil => rfl
  | cons x t ih =>
    rw [cntMood_cons, cntMood_cons, cntMixedBucket_cons, List.length_cons]
    cases hm : moodOf x with
    | str m =>
      have hmoodIs : ∀ k, moodIs x k = (m == k) := by
        intro k
        unfold moodIs
        rw [hm]
      by_cases h1 : m = "Hype"
      · subst h1; simp [hmoodIs]; omega
      · by_cases h2 : m = "Chill"
        · subst h2; simp [hmoodIs]; omega
        · simp [hmoodIs, h1, h2]; omega
    | none => simp [moodIs, hm]; omega
    | bool b => simp [moodIs, hm]; omega
    | int n => simp [moodIs, hm]; omega
    | float q => simp [moodIs, hm]; omega
    | list xs => simp [moodIs, hm]; omega

theorem dedupSongs_length (l : List Dict) :
    (dedupSongs l).length = (l.map songKey).toFinset.card := by
  rw [dedupSongs, dedupByKey_length]
  simp

theorem pyLower_whitespace (q : String) (h : ∀ c ∈ q.data, pyWhitespaceChar c = true) :
    ∀ c ∈ (pyLower q).data, pyWhitespaceChar c = true := by
  intro c hc
  simp only [pyLower, List.mem_map] at hc
  obtain ⟨d, hd, rfl⟩ := hc
  rw [toLower_whitespace d (h d hd)]
  exact h d hd

theorem compute_dup : compute_playlist_stats dupGrouping = .ok dupStats := by
  have hd : dedupSongs (flattenSongs dupGrouping) =
      [[("title", Value.str "A"), ("artist", Value.str "X")]] := rfl
  have ha : avgEnergyE [[("title", Value.str "A"), ("artist", Value.str "X")]] = .ok 0 := by
    have hm : mapExcept energyFloat [[("title", Value.str "A"), ("artist", Value.str "X")]] =
        .ok [((0 : Int) : ℚ)] := rfl
    simp only [avgEnergyE, hm]
    norm_num
  simp only [compute_playlist_stats, hd, ha]
  simp only [dupStats, Except.ok.injEq, Stats.mk.injEq]
  have hl : (pmGetD dupGrouping "Hype" []).length = 2 := rfl
  norm_num [hl]
  exact ⟨rfl, rfl, rfl, rfl⟩

/-- Claim C1 (amended): whenever compute_playlist_stats returns a stats record,
its hype_ratio is the raw (non-deduplicated) length of the "Hype" list divided
by the number of unique songs times 100 when that unique count is positive and
0 when it is zero; and on a grouping containing duplicates the returned
hype_ratio exceeds 100. -/
theorem c1_hype_ratio :
    (∀ (p : PlaylistMap) (s : Stats), compute_playlist_stats p = .ok s →
      s.hype_ratio = if 0 < specUniqueCount p
        then (hypeRawCount p : ℚ) / (specUniqueCount p : ℚ) * 100 else 0) ∧
    compute_playlist_stats dupGrouping = .ok dupStats ∧ 100 < dupStats.hype_ratio := by
  refine ⟨?_, compute_dup, by norm_num [dupStats]⟩
  intro p s h
  simp only [compute_playlist_stats] at h
  cases hm : avgEnergyE (dedupSongs (flattenSongs p)) with
  | error e => rw [hm] at h; exact Except.noConfusion h
  | ok q =>
    rw [hm] at h
    cases h
    show (if 0 < (dedupSongs (flattenSongs p)).length
      then ((pmGetD p "Hype" []).length : ℚ) / ((dedupSongs (flattenSongs p)).length : ℚ) * 100
      else 0) = _
    rw [dedupSongs_length]
    rfl

/-- Claim C1 counterexample: as literally stated the claim fails, because
compute_playlist_stats raises (returns nothing) on a grouping holding a song
whose energy is a truthy non-numeric value. -/
theorem c1_counterexample :
    (compute_playlist_stats [("Hype", [[("energy", Value.list [Value.int 1])]])]).isOk
      = false := rfl

theorem c1_witness :
    dupStats.hype_ratio = if 0 < specUniqueCount dupGrouping
      then (hypeRawCount dupGrouping : ℚ) / (specUniqueCount dupGrouping : ℚ) * 100 else 0 :=
  c1_hype_ratio.1 dupGrouping dupStats compute_dup

/-- Claim C2 (amended): no core operation raises provided that each raw song's
tags value is a string or a list (absence defaults to a list), each song
energy reaching the statistics engine survives float(energy or 0), and each
history entry's mood is hashable; the remaining operations are total for all
inputs.  Without those provisos normalize_song, build_playlists,
compute_playlist_stats and history_summary can raise. -/
theorem c2_never_throw :
    (∀ raw : Dict, tagsOk (dictGet raw "tags" (.list [])) = true →
      (normalize_song raw).isOk = true) ∧
    (∀ (songs : List Dict) (profile : Profile),
      (∀ raw ∈ songs, tagsOk (dictGet raw "tags" (.list [])) = true) →
      (build_playlists songs profile).isOk = true) ∧
    (∀ p : PlaylistMap,
      (∀ s ∈ flattenSongs p, energyCoercible (dictGet s "energy" (.int 0)) = true) →
      (compute_playlist_stats p).isOk = true) ∧
    (∀ h : List Dict, (∀ s ∈ h, pyHashable (moodOf s) = true) →
      (history_summary h).isOk = true) := by
  refine ⟨normalize_song_ok, ?_, compute_playlist_stats_ok, ?_⟩
  · intro songs profile h
    exact buildLoop_ok profile songs _ h
  · intro hist hh
    rw [history_summary, historyLoop_counts hist 0 0 0 hh]
    rfl

/-- Claim C2 counterexample: the code does raise on malformed input.  A
non-iterable tags value makes normalize_song raise TypeError; a song whose
energy is a non-empty list passes normalization and build_playlists but makes
compute_playlist_stats raise TypeError in float(); an unhashable mood makes
history_summary raise TypeError. -/
theorem c2_counterexample :
    (normalize_song [("tags", Value.int 5)]).isOk = false ∧
    ((build_playlists [[("energy", Value.list [Value.int 1])]] DEFAULT_PROFILE).bind
      compute_playlist_stats).isOk = false ∧
    (history_summary [[("mood", Value.list [])]]).isOk = false :=
  ⟨rfl, rfl, rfl⟩

theorem c2_witness :
    (normalize_song [("tags", Value.str "Fun")]).isOk = true ∧
    (build_playlists [[("title", Value.str "A")]] DEFAULT_PROFILE).isOk = true ∧
    (compute_playlist_stats [("Hype", [[("energy", Value.int 5)]])]).isOk = true ∧
    (history_summary [[("mood", Value.str "Weird")]]).isOk = true :=
  ⟨c2_never_throw.1 _ (by rfl),
   c2_never_throw.2.1 _ DEFAULT_PROFILE (by decide),
   c2_never_throw.2.2.1 _ (by decide),
   c2_never_throw.2.2.2 _ (by decide)⟩

/-- Claim C3: a song whose genre equals the profile's favorite genre
(case-insensitively) is always classified "Hype", regardless of energy and
title. -/
theorem c3_favorite_genre_hype (song : Dict) (profile : Profile)
    (h : songGenre song = favGenre profile) :
    classify_song song profile = "Hype" :=
  classify_hype_of_fav song profile h

theorem c3_witness :
    classify_song [("genre", Value.str "Jazz"), ("energy", Value.int 0),
        ("title", Value.str "sleepy lofi")]
      { favorite_genre := some (Value.str "JAZZ") } = "Hype" :=
  c3_favorite_genre_hype _ _ (by rfl)

/-- Claim C4 (amended): whenever build_playlists returns a grouping, that
grouping has exactly the keys Hype, Chill, Mixed, the lengths of the three
lists sum to the input length, and every song's mood field equals the key of
the list it resides in. -/
theorem c4_build_invariants (songs : List Dict) (profile : Profile) (pm : PlaylistMap)
    (h : build_playlists songs profile = .ok pm) :
    pm.map Prod.fst = ["Hype", "Chill", "Mixed"] ∧ pmTotal pm = songs.length ∧
    moodInvariant pm := by
  obtain ⟨h1, h2, h3⟩ :=
    buildLoop_invariant profile songs [("Hype", []), ("Chill", []), ("Mixed", [])] pm
      (by rfl) (by simp [moodInvariant]) h
  refine ⟨h1, ?_, h2⟩
  simpa [pmTotal] using h3

/-- Claim C4 counterexample: as literally stated the claim fails, because on a
raw song whose tags value is not iterable build_playlists raises and returns
no grouping at all. -/
theorem c4_counterexample :
    (build_playlists [[("tags", Value.none)]] DEFAULT_PROFILE).isOk = false := rfl

theorem c4_witness :
    exPm4.map Prod.fst = ["Hype", "Chill", "Mixed"] ∧ pmTotal exPm4 = exSongs4.length ∧
    moodInvariant exPm4 :=
  c4_build_invariants exSongs4 DEFAULT_PROFILE exPm4 (by rfl)

/-- Claim C5: merge_playlists produces the grouping whose key set is the union
of both key sets, with each key's list being a's list followed by b's list, so
lengths add; the inputs are values and are not mutated (the source copies with
list()). -/
theorem c5_merge (a b : PlaylistMap) (k : String) :
    (k ∈ (merge_playlists a b).map Prod.fst ↔
      k ∈ a.map Prod.fst ∨ k ∈ b.map Prod.fst) ∧
    pmGetD (merge_playlists a b) k [] = pmGetD a k [] ++ pmGetD b k [] ∧
    (pmGetD (merge_playlists a b) k []).length =
      (pmGetD a k []).length + (pmGetD b k []).length := by
  have hget : pmGetD (merge_playlists a b) k [] = pmGetD a k [] ++ pmGetD b k [] := by
    rw [merge_playlists, pmGetD_map_keys]
    by_cases h : k ∈ (a.map Prod.fst ++ b.map Prod.fst).dedup
    · rw [if_pos h]
    · rw [if_neg h]
      rw [List.mem_dedup, List.mem_append] at h
      push_neg at h
      rw [pmGetD_default_of_not_mem a k [] h.1, pmGetD_default_of_not_mem b k [] h.2]
      rfl
  refine ⟨?_, hget, by rw [hget, List.length_append]⟩
  simp [merge_playlists, List.mem_dedup]

/-- Claim C6: a song whose numeric energy lies strictly between the profile's
chill_max_energy and hype_min_energy, whose genre is neither the favorite
genre nor contains a hype keyword, and whose title contains no chill keyword,
is classified "Mixed". -/
theorem c6_between_thresholds_mixed (song : Dict) (profile : Profile) (q : ℚ)
    (hq : pyNum (dictGet song "energy" (.int 0)) = some q)
    (hlo : ((profile.chill_max_energy.getD 3 : Int) : ℚ) < q)
    (hhi : q < ((profile.hype_min_energy.getD 7 : Int) : ℚ))
    (hfav : songGenre song ≠ favGenre profile)
    (hk1 : strContains (songGenre song) "rock" = false)
    (hk2 : strContains (songGenre song) "punk" = false)
    (hk3 : strContains (songGenre song) "party" = false)
    (hc1 : strContains (songTitleLower song) "lofi" = false)
    (hc2 : strContains (songTitleLower song) "ambient" = false)
    (hc3 : strContains (songTitleLower song) "sleep" = false) :
    classify_song song profile = "Mixed" := by
  have hH : hypeCond song profile = false := by
    unfold hypeCond energyGE
    rw [hq]
    simp [hfav, hk1, hk2, hk3, hypeKeywords, hhi.not_le]
  have hC : chillCond song profile = false := by
    unfold chillCond energyLE
    rw [hq]
    simp [hc1, hc2, hc3, chillKeywords, hlo.not_le]
  unfold classify_song
  rw [hH, hC]
  rfl

theorem c6_witness :
    classify_song [("energy", Value.int 5), ("genre", Value.str "jazz"),
        ("title", Value.str "Tune")] DEFAULT_PROFILE = "Mixed" :=
  c6_between_thresholds_mixed _ DEFAULT_PROFILE 5 (by rfl)
    (by rw [show (DEFAULT_PROFILE.chill_max_energy.getD 3 : Int) = 3 from rfl]; norm_num)
    (by rw [show (DEFAULT_PROFILE.hype_min_energy.getD 7 : Int) = 7 from rfl]; norm_num)
    (by decide) (by rfl) (by rfl) (by rfl) (by rfl) (by rfl) (by rfl)

/-- Claim C7: with an empty (falsy) query search_songs returns the input list
itself; with a non-empty query it returns, in original order, exactly the
songs whose stringified lower-cased field value is non-empty and contains the
lower-cased trimmed query as a substring. -/
theorem c7_search_filter (songs : List Dict) (query field : String) :
    (query = "" → search_songs songs query field = songs) ∧
    (query ≠ "" →
      search_songs songs query field = songs.filter (fun song =>
        fieldValue song field != "" &&
          strContains (fieldValue song field) (pyStrip (pyLower query))) ∧
      ∀ song, (fieldValue song field != "" &&
          strContains (fieldValue song field) (pyStrip (pyLower query))) = true ↔
        (fieldValue song field ≠ "" ∧
          IsSubstring (pyStrip (pyLower query)) (fieldValue song field))) := by
  constructor
  · intro h
    rw [search_songs, if_pos h]
  · intro h
    refine ⟨?_, ?_⟩
    · rw [search_songs, if_neg h]
      rfl
    · intro song
      rw [Bool.and_eq_true, bne_iff_ne, strContains_iff]

theorem c7_witness :
    search_songs [[("artist", Value.str "Xx")], [("artist", Value.str "B")]] "" "artist" =
      [[("artist", Value.str "Xx")], [("artist", Value.str "B")]] ∧
    search_songs [[("artist", Value.str "Xx")], [("artist", Value.str "B")]] "x" "artist" =
      ([[("artist", Value.str "Xx")], [("artist", Value.str "B")]] : List Dict).filter
        (fun song => fieldValue song "artist" != "" &&
          strContains (fieldValue song "artist") (pyStrip (pyLower "x"))) ∧
    ((fieldValue ([("artist", Value.str "Xx")] : Dict) "artist" != "" &&
        strContains (fieldValue ([("artist", Value.str "Xx")] : Dict) "artist")
          (pyStrip (pyLower "x"))) = true ↔
      (fieldValue ([("artist", Value.str "Xx")] : Dict) "artist" ≠ "" ∧
        IsSubstring (pyStrip (pyLower "x"))
          (fieldValue ([("artist", Value.str "Xx")] : Dict) "artist"))) :=
  ⟨(c7_search_filter [[("artist", Value.str "Xx")], [("artist", Value.str "B")]] "" "artist").1
      rfl,
   ((c7_search_filter [[("artist", Value.str "Xx")], [("artist", Value.str "B")]] "x"
      "artist").2 (by decide)).1,
   ((c7_search_filter [[("artist", Value.str "Xx")], [("artist", Value.str "B")]] "x"
      "artist").2 (by decide)).2 [("artist", Value.str "Xx")]⟩

/-- Claim C8 (amended): on a history whose mood values are hashable,
history_summary returns the mapping with exactly the keys Hype, Chill, Mixed,
where Hype and Chill count the entries carrying exactly that mood and every
other entry (mood missing, non-canonical, or of another kind) is counted under
Mixed; the three counts sum to the length of the history. -/
theorem c8_history_counts (h : List Dict) (hh : ∀ s ∈ h, pyHashable (moodOf s) = true) :
    history_summary h = .ok [("Hype", cntMood h "Hype"), ("Chill", cntMood h "Chill"),
        ("Mixed", cntMixedBucket h)] ∧
    cntMood h "Hype" + cntMood h "Chill" + cntMixedBucket h = h.length := by
  refine ⟨?_, cnt_sum h⟩
  rw [history_summary, historyLoop_counts h 0 0 0 hh]
  simp

/-- Claim C8 counterexample: as literally stated the claim fails, because an
entry with an unhashable mood makes history_summary raise TypeError instead of
counting it under "Mixed". -/
theorem c8_counterexample :
    (history_summary [[("mood", Value.list [Value.str "x"])]]).isOk = false := rfl

theorem c8_witness :
    history_summary [[("mood", Value.str "Hype")], [("mood", Value.str "Weird")], []] =
      .ok [("Hype", cntMood [[("mood", Value.str "Hype")], [("mood", Value.str "Weird")], []]
              "Hype"),
           ("Chill", cntMood [[("mood", Value.str "Hype")], [("mood", Value.str "Weird")], []]
              "Chill"),
           ("Mixed", cntMixedBucket
              [[("mood", Value.str "Hype")], [("mood", Value.str "Weird")], []])] ∧
    cntMood [[("mood", Value.str "Hype")], [("mood", Value.str "Weird")], []] "Hype" +
      cntMood [[("mood", Value.str "Hype")], [("mood", Value.str "Weird")], []] "Chill" +
      cntMixedBucket [[("mood", Value.str "Hype")], [("mood", Value.str "Weird")], []] =
      ([[("mood", Value.str "Hype")], [("mood", Value.str "Weird")], []] : List Dict).length :=
  c8_history_counts [[("mood", Value.str "Hype")], [("mood", Value.str "Weird")], []]
    (by decide)

/-- Claim C9: when the profile's favorite_genre is absent or empty, a song
whose genre is the empty string is classified "Hype" through the first rule's
equality check, regardless of energy. -/
theorem c9_empty_genre_defaults_hype (song : Dict) (profile : Profile)
    (hg : dictGet song "genre" (.str "") = .str "")
    (hp : profile.favorite_genre = Option.none ∨ profile.favorite_genre = some (.str "")) :
    classify_song song profile = "Hype" := by
  apply classify_hype_of_fav
  have h1 : songGenre song = "" := by
    unfold songGenre
    rw [hg]
    rfl
  have h2 : favGenre profile = "" := by
    rcases hp with hp | hp <;> (unfold favGenre; rw [hp]) <;> rfl
  rw [h1, h2]

theorem c9_witness :
    classify_song [("genre", Value.str ""), ("energy", Value.int 9)]
      { favorite_genre := Option.none } = "Hype" :=
  c9_empty_genre_defaults_hype _ _ (by rfl) (Or.inl rfl)

/-- Claim C10: a non-empty query consisting only of whitespace does not take
the unchanged-input path: it trims to the empty query, which every non-empty
value contains, so search returns exactly the songs with a non-empty
stringified field value; on a song with an empty field value this differs
from the input list. -/
theorem c10_whitespace_query :
    (∀ (songs : List Dict) (query field : String), query ≠ "" →
      (∀ c ∈ query.data, pyWhitespaceChar c = true) →
      search_songs songs query field =
        songs.filter (fun song => fieldValue song field != "")) ∧
    search_songs [[]] " " "artist" = [] := by
  constructor
  · intro songs query field hne hws
    have hq : pyStrip (pyLower query) = "" :=
      pyStrip_eq_empty _ (pyLower_whitespace _ hws)
    have hstep : ∀ song : Dict,
        (fieldValue song field != "" &&
          strContains (fieldValue song field) (pyStrip (pyLower query)))
          = (fieldValue song field != "") := by
      intro song
      rw [hq, strContains_empty, Bool.and_true]
    calc search_songs songs query field
        = songs.filter (fun song => fieldValue song field != "" &&
            strContains (fieldValue song field) (pyStrip (pyLower query))) := by
          rw [search_songs, if_neg hne]
          rfl
      _ = songs.filter (fun song => fieldValue song field != "") := by
          exact List.filter_congr (fun x _ => hstep x)
  · rfl

theorem c10_witness :
    search_songs [[("artist", Value.str "A")], []] " " "artist" =
      ([[("artist", Value.str "A")], []] : List Dict).filter
        (fun song => fieldValue song "artist" != "") :=
  c10_whitespace_query.1 [[("artist", Value.str "A")], []] " " "artist" (by decide) (by decide)
